import Mathlib

/-!
Verification of the analytics core of the PM-Manifest repository.

The Python sources are embedded shallowly over exact rationals (`ℚ`):
every guarded division of the source (`x / y if y else 0.0`) becomes an
`if` over `ℚ`, Python dictionaries become association lists
(`List (String × ℚ)`) whose lookup takes the first matching key, and the
single square root of the trend-statistics pass (`variance ** 0.5`)
becomes `Real.sqrt`.

  * `Manifest.*`        embeds `src/scripts/manifest_analysis.py`
  * `DailyEngagement.*` embeds `src/scripts/daily_engagement_average.py`
  * `AgentRunner.*`     embeds the pure cohort/ranking core of
    `src/scripts/agent_runner.py` (`run_rca_interaction_rate`)
-/

namespace Manifest

/-- A Python dict of float values keyed by strings, as an association
list; iteration/insertion order is the list order. -/
abbrev Dict := List (String × ℚ)

/-- `d.get(k, 0.0)`: first binding of `k` in `d`, defaulting to `0`. -/
def dget (d : Dict) (k : String) : ℚ := (d.lookup k).getD 0

/-- `list(d.keys())`. -/
def dictKeys (d : Dict) : List String := d.map Prod.fst

/-- `safe_rate` from `compute_shift_share_drivers`
(manifest_analysis.py lines 135-136): `(c / v) if v else 0.0`. -/
def safe_rate (c v : ℚ) : ℚ := if v ≠ 0 then c / v else 0

/-- `safe_share` from `compute_shift_share_drivers`
(manifest_analysis.py lines 137-138): `(v / total) if total else 0.0`. -/
def safe_share (v total : ℚ) : ℚ := if total ≠ 0 then v / total else 0

/-- `compute_interaction_rate_from_counts` (manifest_analysis.py lines
99-102): `0.0` when `visits <= 0`, else `clicks / visits * 100`. -/
def compute_interaction_rate_from_counts (clicks visits : ℚ) : ℚ :=
  if visits ≤ 0 then 0 else clicks / visits * 100

/-- Result dictionary of `compute_shift_share_drivers`
(manifest_analysis.py lines 161-166). -/
structure ShiftShareResult where
  rate_effect : ℚ
  mix_effect : ℚ
  volume_effect : ℚ
  delta_rate : ℚ
  deriving Repr, DecidableEq

/-- The key set iterated by `compute_shift_share_drivers`
(manifest_analysis.py line 141):
`set(list(per_key_visits_cur.keys()) + list(per_key_visits_prev.keys()))`,
concretised as order-preserving deduplication of the concatenation. -/
def shiftShareKeys (per_key_visits_cur per_key_visits_prev : Dict) : List String :=
  (dictKeys per_key_visits_cur ++ dictKeys per_key_visits_prev).dedup

/-- One iteration of the accumulation loop of `compute_shift_share_drivers`
(manifest_analysis.py lines 144-155); the pair is
`(rate_effect, mix_effect)`. -/
def shiftShareStep (total_visits_cur total_visits_prev : ℚ)
    (per_key_clicks_cur per_key_visits_cur per_key_clicks_prev per_key_visits_prev : Dict)
    (acc : ℚ × ℚ) (k : String) : ℚ × ℚ :=
  let v_cur := dget per_key_visits_cur k
  let v_prev := dget per_key_visits_prev k
  let c_cur := dget per_key_clicks_cur k
  let c_prev := dget per_key_clicks_prev k
  let r_i_cur := safe_rate c_cur v_cur
  let r_i_prev := safe_rate c_prev v_prev
  let w_i_cur := safe_share v_cur total_visits_cur
  let w_i_prev := safe_share v_prev total_visits_prev
  let w_i_avg := (w_i_cur + w_i_prev) / 2
  (acc.1 + w_i_avg * (r_i_cur - r_i_prev), acc.2 + (w_i_cur - w_i_prev) * r_i_prev)

/-- Body of `compute_shift_share_drivers` after the key set has been
fixed (manifest_analysis.py lines 139-166), parameterised by the
iteration list so that the effect of the key-set choice can be stated. -/
def shiftShareOverKeys (keys : List String)
    (total_clicks_cur total_visits_cur total_clicks_prev total_visits_prev : ℚ)
    (per_key_clicks_cur per_key_visits_cur per_key_clicks_prev per_key_visits_prev : Dict) :
    ShiftShareResult :=
  let r_cur := safe_rate total_clicks_cur total_visits_cur
  let r_prev := safe_rate total_clicks_prev total_visits_prev
  let acc := keys.foldl
    (shiftShareStep total_visits_cur total_visits_prev
      per_key_clicks_cur per_key_visits_cur per_key_clicks_prev per_key_visits_prev)
    (0, 0)
  let rate_effect := acc.1
  let mix_effect := acc.2
  let volume_effect : ℚ := 0
  let total_delta := r_cur - r_prev
  let residual := total_delta - (rate_effect + mix_effect + volume_effect)
  let rate_effect := rate_effect + residual
  { rate_effect := rate_effect * 100
    mix_effect := mix_effect * 100
    volume_effect := volume_effect
    delta_rate := total_delta * 100 }

/-- `compute_shift_share_drivers` (manifest_analysis.py lines 118-166). -/
def compute_shift_share_drivers
    (total_clicks_cur total_visits_cur total_clicks_prev total_visits_prev : ℚ)
    (per_key_clicks_cur per_key_visits_cur per_key_clicks_prev per_key_visits_prev : Dict) :
    ShiftShareResult :=
  shiftShareOverKeys (shiftShareKeys per_key_visits_cur per_key_visits_prev)
    total_clicks_cur total_visits_cur total_clicks_prev total_visits_prev
    per_key_clicks_cur per_key_visits_cur per_key_clicks_prev per_key_visits_prev

/-- The key set the specification describes for
`compute_shift_share_drivers`: the union of the keys of all four input
mappings ("Keys are the union of all keys seen in either period in
either metric"). The code's key set is `shiftShareKeys`. -/
def specShiftShareKeys
    (per_key_clicks_cur per_key_visits_cur per_key_clicks_prev per_key_visits_prev : Dict) :
    List String :=
  (dictKeys per_key_clicks_cur ++ dictKeys per_key_visits_cur ++
    dictKeys per_key_clicks_prev ++ dictKeys per_key_visits_prev).dedup

end Manifest

namespace Manifest

lemma foldl_shiftShareStep (tvc tvp : ℚ) (d1 d2 d3 d4 : Dict)
    (keys : List String) (a b : ℚ) :
    keys.foldl (shiftShareStep tvc tvp d1 d2 d3 d4) (a, b) =
      (a + (keys.map (fun k =>
              (safe_share (dget d2 k) tvc + safe_share (dget d4 k) tvp) / 2 *
                (safe_rate (dget d1 k) (dget d2 k) - safe_rate (dget d3 k) (dget d4 k)))).sum,
       b + (keys.map (fun k =>
              (safe_share (dget d2 k) tvc - safe_share (dget d4 k) tvp) *
                safe_rate (dget d3 k) (dget d4 k))).sum) := by
  induction keys generalizing a b with
  | nil => simp
  | cons k ks ih =>
      simp only [List.foldl_cons, List.map_cons, List.sum_cons, shiftShareStep, ih]
      rw [Prod.mk.injEq]
      exact ⟨by ring, by ring⟩

end Manifest

namespace Manifest

lemma safe_share_zero (t : ℚ) : safe_share 0 t = 0 := by
  unfold safe_share; split <;> simp

lemma dget_eq_zero_of_not_mem (d : Dict) (k : String) (h : k ∉ dictKeys d) :
    dget d k = 0 := by
  induction d with
  | nil => rfl
  | cons p t ih =>
      obtain ⟨a, w⟩ := p
      simp only [dictKeys, List.map_cons, List.mem_cons, not_or] at h
      simp only [dget, List.lookup_cons, beq_false_of_ne h.1]
      exact ih (by simpa [dictKeys] using h.2)

lemma mem_of_lookup_eq_some (d : Dict) (k : String) (v : ℚ)
    (h : d.lookup k = some v) : (k, v) ∈ d := by
  induction d with
  | nil => simp [List.lookup] at h
  | cons p t ih =>
      obtain ⟨a, w⟩ := p
      by_cases hk : k = a
      · subst hk
        simp only [List.lookup_cons, beq_self_eq_true, Option.some.injEq] at h
        rw [← h]
        exact List.mem_cons_self _ _
      · simp only [List.lookup_cons, beq_false_of_ne hk] at h
        exact List.mem_cons_of_mem _ (ih h)

lemma lookup_eq_some_of_mem (d : Dict) (k : String) (v : ℚ)
    (hd : (d.map Prod.fst).Nodup) (h : (k, v) ∈ d) : d.lookup k = some v := by
  induction d with
  | nil => simp at h
  | cons p t ih =>
      obtain ⟨a, w⟩ := p
      simp only [List.map_cons, List.nodup_cons] at hd
      rcases List.mem_cons.mp h with h1 | h1
      · rw [Prod.mk.injEq] at h1
        simp [List.lookup_cons, h1.1, h1.2]
      · have hk : k ≠ a := by
          intro hkp
          exact hd.1 (hkp ▸ (List.mem_map.mpr ⟨(k, v), h1, rfl⟩))
        simp only [List.lookup_cons, beq_false_of_ne hk]
        exact ih hd.2 h1

lemma dict_lookup_of_perm (d e : Dict) (h : d.Perm e)
    (hd : (d.map Prod.fst).Nodup) (k : String) : d.lookup k = e.lookup k := by
  have he : (e.map Prod.fst).Nodup := ((h.map Prod.fst).nodup_iff).mp hd
  cases hl : d.lookup k with
  | some v =>
      exact (lookup_eq_some_of_mem e k v he (h.mem_iff.mp (mem_of_lookup_eq_some d k v hl))).symm
  | none =>
      cases hl2 : e.lookup k with
      | none => rfl
      | some v =>
          have : (k, v) ∈ d := h.mem_iff.mpr (mem_of_lookup_eq_some e k v hl2)
          rw [lookup_eq_some_of_mem d k v hd this] at hl
          exact absurd hl (by simp)

lemma dget_eq_of_perm (d e : Dict) (h : d.Perm e)
    (hd : (d.map Prod.fst).Nodup) (k : String) : dget d k = dget e k := by
  unfold dget
  rw [dict_lookup_of_perm d e h hd k]

lemma sum_map_eq_of_mem_iff (F : String → ℚ) (l1 l2 : List String)
    (h1 : l1.Nodup) (h2 : l2.Nodup) (hm : ∀ k, k ∈ l1 ↔ k ∈ l2) :
    (l1.map F).sum = (l2.map F).sum := by
  rw [← List.sum_toFinset F h1, ← List.sum_toFinset F h2]
  apply Finset.sum_congr _ (fun _ _ => rfl)
  ext k
  simp [List.mem_toFinset, hm k]

lemma sum_map_eq_of_subset_of_zero (F : String → ℚ) (l1 l2 : List String)
    (h1 : l1.Nodup) (h2 : l2.Nodup) (hsub : ∀ k, k ∈ l1 → k ∈ l2)
    (hz : ∀ k, k ∈ l2 → k ∉ l1 → F k = 0) :
    (l1.map F).sum = (l2.map F).sum := by
  rw [← List.sum_toFinset F h1, ← List.sum_toFinset F h2]
  refine Finset.sum_subset (fun k hk => ?_) (fun k hk hk' => ?_)
  · exact List.mem_toFinset.mpr (hsub k (List.mem_toFinset.mp hk))
  · exact hz k (List.mem_toFinset.mp hk) (fun hc => hk' (List.mem_toFinset.mpr hc))

end Manifest

/-- C1: for every input to `compute_shift_share_drivers`, the returned
`rate_effect + mix_effect + volume_effect` equals `delta_rate`: the
residual `total_delta - (rate_effect + mix_effect + volume_effect)` is
folded entirely into `rate_effect` (the returned `mix_effect` is exactly
the accumulated mix sum ×100), and `volume_effect` is always `0`. -/
theorem shift_share_components_sum_to_delta
    (tcc tvc tcp tvp : ℚ) (d1 d2 d3 d4 : Manifest.Dict) :
    (Manifest.compute_shift_share_drivers tcc tvc tcp tvp d1 d2 d3 d4).rate_effect +
      (Manifest.compute_shift_share_drivers tcc tvc tcp tvp d1 d2 d3 d4).mix_effect +
      (Manifest.compute_shift_share_drivers tcc tvc tcp tvp d1 d2 d3 d4).volume_effect =
      (Manifest.compute_shift_share_drivers tcc tvc tcp tvp d1 d2 d3 d4).delta_rate ∧
    (Manifest.compute_shift_share_drivers tcc tvc tcp tvp d1 d2 d3 d4).volume_effect = 0 ∧
    (Manifest.compute_shift_share_drivers tcc tvc tcp tvp d1 d2 d3 d4).mix_effect =
      ((Manifest.shiftShareKeys d2 d4).foldl
        (Manifest.shiftShareStep tvc tvp d1 d2 d3 d4) (0, 0)).2 * 100 := by
  refine ⟨?_, rfl, rfl⟩
  simp only [Manifest.compute_shift_share_drivers, Manifest.shiftShareOverKeys]
  ring

/-- C2 counterexample: with `per_key_clicks_cur = {"a": 5}` and all other
mappings empty, the key `"a"` is in the union of the four mappings' keys
(the set the claim describes) but not in the key set
`compute_shift_share_drivers` actually iterates, which is built from the
two visits mappings only. -/
theorem shift_share_keyset_counterexample :
    "a" ∈ Manifest.specShiftShareKeys [("a", 5)] [] [] [] ∧
    "a" ∉ Manifest.shiftShareKeys [] [] ∧
    Manifest.shiftShareKeys [] [] ≠ Manifest.specShiftShareKeys [("a", 5)] [] [] [] := by
  decide

/-- C2 (amended): `compute_shift_share_drivers` iterates only over the
union of the keys of the two visits mappings; keys present only in the
clicks mappings are skipped, but a skipped key has zero visits in both
periods and contributes zero to every effect, so running the same body
over the union of all four mappings' keys returns the identical result.
Missing keys are read as zero-valued entries throughout. -/
theorem shift_share_missing_keys_harmless
    (tcc tvc tcp tvp : ℚ) (d1 d2 d3 d4 : Manifest.Dict) :
    Manifest.shiftShareOverKeys (Manifest.specShiftShareKeys d1 d2 d3 d4)
        tcc tvc tcp tvp d1 d2 d3 d4 =
      Manifest.compute_shift_share_drivers tcc tvc tcp tvp d1 d2 d3 d4 := by
  have hsub : ∀ k, k ∈ Manifest.shiftShareKeys d2 d4 →
      k ∈ Manifest.specShiftShareKeys d1 d2 d3 d4 := by
    intro k hk
    simp only [Manifest.shiftShareKeys, Manifest.specShiftShareKeys, List.mem_dedup,
      List.mem_append] at *
    tauto
  have hzero : ∀ k, k ∉ Manifest.shiftShareKeys d2 d4 →
      Manifest.dget d2 k = 0 ∧ Manifest.dget d4 k = 0 := by
    intro k hk
    simp only [Manifest.shiftShareKeys, List.mem_dedup, List.mem_append, not_or] at hk
    exact ⟨Manifest.dget_eq_zero_of_not_mem _ _ hk.1,
      Manifest.dget_eq_zero_of_not_mem _ _ hk.2⟩
  have hF : ((Manifest.specShiftShareKeys d1 d2 d3 d4).map (fun k =>
        (Manifest.safe_share (Manifest.dget d2 k) tvc +
            Manifest.safe_share (Manifest.dget d4 k) tvp) / 2 *
          (Manifest.safe_rate (Manifest.dget d1 k) (Manifest.dget d2 k) -
            Manifest.safe_rate (Manifest.dget d3 k) (Manifest.dget d4 k)))).sum =
      ((Manifest.shiftShareKeys d2 d4).map (fun k =>
        (Manifest.safe_share (Manifest.dget d2 k) tvc +
            Manifest.safe_share (Manifest.dget d4 k) tvp) / 2 *
          (Manifest.safe_rate (Manifest.dget d1 k) (Manifest.dget d2 k) -
            Manifest.safe_rate (Manifest.dget d3 k) (Manifest.dget d4 k)))).sum := by
    refine (Manifest.sum_map_eq_of_subset_of_zero _ _ _
      (List.nodup_dedup _) (List.nodup_dedup _) hsub ?_).symm
    intro k _ hk2
    obtain ⟨h2, h4⟩ := hzero k hk2
    rw [h2, h4]
    simp [Manifest.safe_share_zero]
  have hG : ((Manifest.specShiftShareKeys d1 d2 d3 d4).map (fun k =>
        (Manifest.safe_share (Manifest.dget d2 k) tvc -
            Manifest.safe_share (Manifest.dget d4 k) tvp) *
          Manifest.safe_rate (Manifest.dget d3 k) (Manifest.dget d4 k))).sum =
      ((Manifest.shiftShareKeys d2 d4).map (fun k =>
        (Manifest.safe_share (Manifest.dget d2 k) tvc -
            Manifest.safe_share (Manifest.dget d4 k) tvp) *
          Manifest.safe_rate (Manifest.dget d3 k) (Manifest.dget d4 k))).sum := by
    refine (Manifest.sum_map_eq_of_subset_of_zero _ _ _
      (List.nodup_dedup _) (List.nodup_dedup _) hsub ?_).symm
    intro k _ hk2
    obtain ⟨h2, h4⟩ := hzero k hk2
    rw [h2, h4]
    simp [Manifest.safe_share_zero]
  simp only [Manifest.compute_shift_share_drivers, Manifest.shiftShareOverKeys,
    Manifest.foldl_shiftShareStep, zero_add]
  rw [hF, hG]

/-- C10: `compute_shift_share_drivers` is invariant under reordering of
the four input dictionaries: if each pair of dictionaries holds the same
key-value pairs (is a permutation, with no duplicate keys, as for a
Python dict), all four returned fields are identical in exact
arithmetic — the decomposition is a sum over the key set. -/
theorem shift_share_order_independent
    (tcc tvc tcp tvp : ℚ) (d1 d2 d3 d4 e1 e2 e3 e4 : Manifest.Dict)
    (hp1 : d1.Perm e1) (hp2 : d2.Perm e2) (hp3 : d3.Perm e3) (hp4 : d4.Perm e4)
    (hn1 : (d1.map Prod.fst).Nodup) (hn2 : (d2.map Prod.fst).Nodup)
    (hn3 : (d3.map Prod.fst).Nodup) (hn4 : (d4.map Prod.fst).Nodup) :
    Manifest.compute_shift_share_drivers tcc tvc tcp tvp d1 d2 d3 d4 =
      Manifest.compute_shift_share_drivers tcc tvc tcp tvp e1 e2 e3 e4 := by
  have g1 : ∀ k, Manifest.dget d1 k = Manifest.dget e1 k :=
    Manifest.dget_eq_of_perm d1 e1 hp1 hn1
  have g2 : ∀ k, Manifest.dget d2 k = Manifest.dget e2 k :=
    Manifest.dget_eq_of_perm d2 e2 hp2 hn2
  have g3 : ∀ k, Manifest.dget d3 k = Manifest.dget e3 k :=
    Manifest.dget_eq_of_perm d3 e3 hp3 hn3
  have g4 : ∀ k, Manifest.dget d4 k = Manifest.dget e4 k :=
    Manifest.dget_eq_of_perm d4 e4 hp4 hn4
  have hmem : ∀ k, k ∈ Manifest.shiftShareKeys d2 d4 ↔
      k ∈ Manifest.shiftShareKeys e2 e4 := by
    intro k
    simp only [Manifest.shiftShareKeys, Manifest.dictKeys, List.mem_dedup, List.mem_append]
    rw [(hp2.map Prod.fst).mem_iff, (hp4.map Prod.fst).mem_iff]
  have hnd : (Manifest.shiftShareKeys d2 d4).Nodup := List.nodup_dedup _
  have hne : (Manifest.shiftShareKeys e2 e4).Nodup := List.nodup_dedup _
  simp only [Manifest.compute_shift_share_drivers, Manifest.shiftShareOverKeys,
    Manifest.foldl_shiftShareStep, zero_add, g1, g2, g3, g4]
  rw [Manifest.sum_map_eq_of_mem_iff _ _ _ hnd hne hmem,
    Manifest.sum_map_eq_of_mem_iff _ _ _ hnd hne hmem]

/-- Witness for C10 at concrete dictionaries given in two different
insertion orders. -/
theorem shift_share_order_independent_witness :
    Manifest.compute_shift_share_drivers 10 20 5 8
        [("a", 1), ("b", 3)] [("a", 2), ("b", 6)] [("b", 1)] [("b", 4)] =
      Manifest.compute_shift_share_drivers 10 20 5 8
        [("b", 3), ("a", 1)] [("b", 6), ("a", 2)] [("b", 1)] [("b", 4)] :=
  shift_share_order_independent 10 20 5 8 _ _ _ _ _ _ _ _
    (by decide) (by decide) (by decide) (by decide)
    (by decide) (by decide) (by decide) (by decide)

namespace DailyEngagement

/-- A daily record `{date, sum_count}` as produced by
`extract_daily_sums` (daily_engagement_average.py lines 59-70). -/
abbrev DailySum := String × ℚ

/-- Lexicographic code-point comparison of character lists — the order
Python's `sorted` applies to date strings. Written by structural
recursion so that it evaluates by kernel reduction. -/
def charListLe : List Char → List Char → Bool
  | [], _ => true
  | _ :: _, [] => false
  | a :: as, b :: bs => if a < b then true else if b < a then false else charListLe as bs

/-- `a <= b` on date strings, by code points. -/
def strLe (a b : String) : Bool := charListLe a.data b.data

/-- `sorted(daily_sums, key=lambda x: x["date"])`
(daily_engagement_average.py line 90): a stable ascending sort by date,
embedded as insertion sort. -/
def sortDays (daily_sums : List DailySum) : List DailySum :=
  daily_sums.insertionSort (fun a b => strLe a.1 b.1 = true)

/-- `sorted(values)` (daily_engagement_average.py line 204). -/
def sortVals (values : List ℚ) : List ℚ :=
  values.insertionSort (fun a b => a ≤ b)

/-- One record of the day-over-day change list
(daily_engagement_average.py lines 95-110). -/
structure DayChange where
  date : String
  previous_date : String
  current_value : ℚ
  previous_value : ℚ
  absolute_change : ℚ
  percentage_change : ℚ
  deriving Repr, DecidableEq

/-- The change record built from `sorted_days[i-1]` and `sorted_days[i]`
(daily_engagement_average.py lines 96-110), including the
`prev_value == 0` guard for `percentage_change`. -/
def mkDayChange (prev curr : DailySum) : DayChange :=
  { date := curr.1
    previous_date := prev.1
    current_value := curr.2
    previous_value := prev.2
    absolute_change := curr.2 - prev.2
    percentage_change := if prev.2 = 0 then 0 else (curr.2 - prev.2) / prev.2 * 100 }

/-- The day-over-day pass (daily_engagement_average.py lines 94-110):
one record per adjacent pair of the sorted list. -/
def dayOverDayChanges (sorted_days : List DailySum) : List DayChange :=
  (sorted_days.zip sorted_days.tail).map (fun p => mkDayChange p.1 p.2)

/-- Moving average ending at index `i` (daily_engagement_average.py
lines 115-121): window start `max(0, i - (window-1))` (truncated `ℕ`
subtraction), averaging `values[start : i+1]` over `i - start + 1`
points. -/
def movingAvgAt (values : List ℚ) (window i : ℕ) : ℚ :=
  let start := i - (window - 1)
  ((values.drop start).take (i - start + 1)).sum / ((i - start + 1 : ℕ) : ℚ)

/-- `mean = sum(values) / len(values)` (line 124). -/
def meanOf (values : List ℚ) : ℚ := values.sum / (values.length : ℚ)

/-- `variance = sum((x - mean) ** 2 for x in values) / len(values)`
(line 125): the population variance (divide by `n`). -/
def varianceOf (values : List ℚ) : ℚ :=
  (values.map (fun x => (x - meanOf values) ^ 2)).sum / (values.length : ℚ)

/-- `std_dev = variance ** 0.5` (line 126). -/
noncomputable def stdDevOf (values : List ℚ) : ℝ :=
  Real.sqrt ((varianceOf values : ℚ) : ℝ)

/-- `sorted(values)[len(values) // 2] if values else 0` (line 204). -/
def medianOf (values : List ℚ) : ℚ :=
  if values = [] then 0 else (sortVals values).getD (values.length / 2) 0

/-- `min(values)` (line 206); the Python call requires a non-empty list,
which the `len < 2` guard ensures. -/
def minOf : List ℚ → ℚ
  | [] => 0
  | x :: xs => xs.foldl min x

/-- `max(values)` (line 207). -/
def maxOf : List ℚ → ℚ
  | [] => 0
  | x :: xs => xs.foldl max x

/-- One outlier record (daily_engagement_average.py lines 133-139). -/
structure Outlier where
  date : String
  value : ℚ
  z_score : ℝ
  deviation_from_mean : ℚ
  deviation_pct : ℚ

/-- The outlier pass (daily_engagement_average.py lines 128-139):
`z_score = (value - mean) / std_dev if std_dev > 0 else 0`; a day is kept
when `abs(z_score) > 2.0`. -/
noncomputable def outliersOf (sorted_days : List DailySum) : List Outlier :=
  let values := sorted_days.map Prod.snd
  let mean := meanOf values
  let std_dev := stdDevOf values
  sorted_days.filterMap (fun day =>
    let z_score : ℝ := if std_dev > 0 then (((day.2 - mean : ℚ) : ℝ)) / std_dev else 0
    if |z_score| > 2 then
      some { date := day.1
             value := day.2
             z_score := z_score
             deviation_from_mean := day.2 - mean
             deviation_pct := if mean > 0 then (day.2 - mean) / mean * 100 else 0 }
    else none)

/-- `largest_increases` (lines 142-146): stable sort of the change list
by `percentage_change`, descending, first five. -/
def largestIncreases (changes : List DayChange) : List DayChange :=
  (changes.insertionSort (fun a b => b.percentage_change ≤ a.percentage_change)).take 5

/-- `largest_decreases` (lines 149-152): stable sort ascending, first
five. -/
def largestDecreases (changes : List DayChange) : List DayChange :=
  (changes.insertionSort (fun a b => a.percentage_change ≤ b.percentage_change)).take 5

/-- One trend-break record (daily_engagement_average.py lines 164-170). -/
structure TrendBreak where
  date : String
  previous_7day_avg : ℚ
  current_7day_avg : ℚ
  shift_percentage : ℚ
  shift_type : String
  deriving Repr, DecidableEq

/-- `prev_avg = sum(values[i - 7:i]) / 7` (line 158). -/
def prevWindowAvg (values : List ℚ) (i : ℕ) : ℚ :=
  ((values.drop (i - 7)).take 7).sum / 7

/-- `curr_avg = sum(values[i - 6:i + 1]) / 7` (line 159). -/
def currWindowAvg (values : List ℚ) (i : ℕ) : ℚ :=
  ((values.drop (i - 6)).take 7).sum / 7

/-- Loop body of the trend-break pass at index `i`
(daily_engagement_average.py lines 157-170). -/
def trendBreakAt (sorted_days : List DailySum) (i : ℕ) : Option TrendBreak :=
  let values := sorted_days.map Prod.snd
  let prev_avg := prevWindowAvg values i
  let curr_avg := currWindowAvg values i
  if prev_avg > 0 then
    let shift_pct := (curr_avg - prev_avg) / prev_avg * 100
    if |shift_pct| > 15 then
      some { date := (sorted_days.getD i ("", 0)).1
             previous_7day_avg := prev_avg
             current_7day_avg := curr_avg
             shift_percentage := shift_pct
             shift_type := if shift_pct > 0 then "increase" else "decrease" }
    else none
  else none

/-- The trend-break pass (daily_engagement_average.py lines 155-170):
`for i in range(7, len(sorted_days))`. -/
def trendBreaks (sorted_days : List DailySum) : List TrendBreak :=
  (List.range' 7 (sorted_days.length - 7)).filterMap (trendBreakAt sorted_days)

/-- The linear-trend record (daily_engagement_average.py lines 172-189
and 210-216). -/
structure LinearTrend where
  direction : String
  slope : ℚ
  strength_per_day_pct : ℚ
  estimated_change_over_period : ℚ
  estimated_change_over_period_pct : ℚ
  deriving Repr, DecidableEq

/-- Closed-form OLS slope (daily_engagement_average.py lines 174-181),
`0` when `n <= 1` or the denominator is `0`. -/
def slopeOf (values : List ℚ) : ℚ :=
  let n := values.length
  if 1 < n then
    let sum_x : ℚ := ((List.range n).map (fun (i : ℕ) => (i : ℚ))).sum
    let sum_y := values.sum
    let sum_xy := ((List.range n).map (fun (i : ℕ) => (i : ℚ) * values.getD i 0)).sum
    let sum_x2 := ((List.range n).map (fun (i : ℕ) => (i : ℚ) * (i : ℚ))).sum
    if (n : ℚ) * sum_x2 - sum_x * sum_x ≠ 0 then
      ((n : ℚ) * sum_xy - sum_x * sum_y) / ((n : ℚ) * sum_x2 - sum_x * sum_x)
    else 0
  else 0

/-- The overall-trend computation (daily_engagement_average.py lines
172-189 and 210-216). -/
def linearTrendOf (values : List ℚ) : LinearTrend :=
  let n := values.length
  let mean := meanOf values
  let slope := slopeOf values
  { direction :=
      if 1 < n then
        (if slope > 0 then "increasing" else if slope < 0 then "decreasing" else "stable")
      else "insufficient_data"
    slope := slope
    strength_per_day_pct :=
      if 1 < n then (if mean > 0 then |slope| / mean * 100 else 0) else 0
    estimated_change_over_period := slope * ((n : ℚ) - 1)
    estimated_change_over_period_pct :=
      if mean > 0 then slope * ((n : ℚ) - 1) / mean * 100 else 0 }

/-- One enhanced daily record (daily_engagement_average.py lines
192-199). -/
structure EnhancedDaily where
  date : String
  sum_count : ℚ
  moving_avg_7day : ℚ
  moving_avg_14day : ℚ
  deriving Repr, DecidableEq

/-- The enhanced daily data (daily_engagement_average.py lines 191-199). -/
def enhancedDailyData (sorted_days : List DailySum) : List EnhancedDaily :=
  let values := sorted_days.map Prod.snd
  (List.range sorted_days.length).map (fun i =>
    { date := (sorted_days.getD i ("", 0)).1
      sum_count := (sorted_days.getD i ("", 0)).2
      moving_avg_7day := movingAvgAt values 7 i
      moving_avg_14day := movingAvgAt values 14 i })

/-- The `statistics` sub-dictionary (daily_engagement_average.py lines
202-209). -/
structure TrendStatistics where
  mean : ℚ
  median : ℚ
  std_deviation : ℝ
  min : ℚ
  max : ℚ
  range : ℚ

/-- The full return dictionary of `calculate_trend_analysis`
(daily_engagement_average.py lines 201-223). -/
structure TrendResult where
  statistics : TrendStatistics
  trend : LinearTrend
  day_over_day_changes : List DayChange
  enhanced_daily_data : List EnhancedDaily
  outliers : List Outlier
  largest_increases : List DayChange
  largest_decreases : List DayChange
  trend_breaks : List TrendBreak

/-- `calculate_trend_analysis` (daily_engagement_average.py lines
81-223): the `{"error": ...}` dictionary returned for fewer than 2
observations becomes `Except.error`. -/
noncomputable def calculate_trend_analysis (daily_sums : List DailySum) :
    Except String TrendResult :=
  if daily_sums.length < 2 then
    .error "Need at least 2 days of data for trend analysis"
  else
    let sorted_days := sortDays daily_sums
    let values := sorted_days.map Prod.snd
    let changes := dayOverDayChanges sorted_days
    .ok
      { statistics :=
          { mean := meanOf values
            median := medianOf values
            std_deviation := stdDevOf values
            min := minOf values
            max := maxOf values
            range := maxOf values - minOf values }
        trend := linearTrendOf values
        day_over_day_changes := changes
        enhanced_daily_data := enhancedDailyData sorted_days
        outliers := outliersOf sorted_days
        largest_increases := largestIncreases changes
        largest_decreases := largestDecreases changes
        trend_breaks := trendBreaks sorted_days }

/-- `calculate_daily_average` (daily_engagement_average.py lines 73-78). -/
def calculate_daily_average (daily_sums : List DailySum) : ℚ :=
  if daily_sums = [] then 0
  else (daily_sums.map (fun day => day.2)).sum / (daily_sums.length : ℚ)

end DailyEngagement

namespace DailyEngagement

/-- Modelled from the claim's words (C5): the "lower of the two middle
elements" median — index `(len - 1) / 2` of the sorted sequence. The
code's median is `medianOf`. -/
def lowerMedianSpec (values : List ℚ) : ℚ :=
  if values = [] then 0 else (sortVals values).getD ((values.length - 1) / 2) 0

lemma length_sortDays (ds : List DailySum) : (sortDays ds).length = ds.length :=
  List.length_insertionSort _ ds

lemma length_dayOverDayChanges (sd : List DailySum) :
    (dayOverDayChanges sd).length = sd.length - 1 := by
  simp only [dayOverDayChanges, List.length_map, List.length_zip, List.length_tail]
  omega

end DailyEngagement

/-- C3: in every day-over-day change record produced by
`calculate_trend_analysis`, `percentage_change` is exactly `0` when the
previous day's value is `0`, and `(current - previous) / previous * 100`
otherwise. -/
theorem pct_change_formula_with_zero_guard
    (ds : List DailyEngagement.DailySum) (c : DailyEngagement.DayChange) :
    (2 ≤ ds.length →
      (DailyEngagement.calculate_trend_analysis ds).map
          (fun r => r.day_over_day_changes) =
        .ok (DailyEngagement.dayOverDayChanges (DailyEngagement.sortDays ds))) ∧
    (c ∈ DailyEngagement.dayOverDayChanges (DailyEngagement.sortDays ds) →
      (c.previous_value = 0 → c.percentage_change = 0) ∧
      (c.previous_value ≠ 0 →
        c.percentage_change =
          (c.current_value - c.previous_value) / c.previous_value * 100)) := by
  constructor
  · intro h
    rw [DailyEngagement.calculate_trend_analysis, if_neg (by omega)]
    rfl
  · intro hc
    rcases List.mem_map.mp hc with ⟨p, _, rfl⟩
    constructor
    · intro h0
      simp only [DailyEngagement.mkDayChange] at h0 ⊢
      rw [if_pos h0]
    · intro h0
      simp only [DailyEngagement.mkDayChange] at h0 ⊢
      rw [if_neg h0]

/-- Witness for C3 at the two-day input `[("a", 0), ("b", 5)]`: the
change record has previous value `0` and percentage change exactly `0`. -/
theorem pct_change_formula_with_zero_guard_witness :
    ({ date := "b", previous_date := "a", current_value := 5, previous_value := 0,
        absolute_change := 5, percentage_change := 0 } :
          DailyEngagement.DayChange).percentage_change = 0 ∧
    (DailyEngagement.calculate_trend_analysis [("a", 0), ("b", 5)]).map
        (fun r => r.day_over_day_changes) =
      .ok (DailyEngagement.dayOverDayChanges
        (DailyEngagement.sortDays [("a", 0), ("b", 5)])) :=
  ⟨((pct_change_formula_with_zero_guard [("a", 0), ("b", 5)]
        { date := "b", previous_date := "a", current_value := 5, previous_value := 0,
          absolute_change := 5, percentage_change := 0 }).2 (by
      have hs : DailyEngagement.sortDays [("a", 0), ("b", 5)] = [("a", 0), ("b", 5)] := by
        decide
      simp [hs, DailyEngagement.dayOverDayChanges, DailyEngagement.mkDayChange])).1 rfl,
    (pct_change_formula_with_zero_guard [("a", 0), ("b", 5)]
        { date := "b", previous_date := "a", current_value := 5, previous_value := 0,
          absolute_change := 5, percentage_change := 0 }).1 (by decide)⟩

/-- C5 counterexample: for the four-day input with values `[1, 2, 3, 4]`
the median returned by `calculate_trend_analysis` is `3` — the upper of
the two middle elements — while the lower of the two middle elements of
the sorted values is `2`. -/
theorem median_lower_middle_counterexample :
    (DailyEngagement.calculate_trend_analysis
        [("a", 1), ("b", 2), ("c", 3), ("d", 4)]).map
        (fun r => r.statistics.median) = .ok 3 ∧
    DailyEngagement.lowerMedianSpec [1, 2, 3, 4] = 2 ∧ (3 : ℚ) ≠ 2 := by
  refine ⟨?_, by decide, by decide⟩
  rw [DailyEngagement.calculate_trend_analysis, if_neg (by decide)]
  exact congrArg Except.ok (by decide)

/-- C5 (amended): the median returned by `calculate_trend_analysis` is
the element at index `len // 2` of the sorted value sequence — for an
even length `2*m` that is index `m`, the upper of the two middle
elements (no averaging). -/
theorem median_is_upper_middle (ds : List DailyEngagement.DailySum) (m : ℕ)
    (hlen : ds.length = 2 * m) (hm : 0 < m) :
    (DailyEngagement.calculate_trend_analysis ds).map (fun r => r.statistics.median) =
      .ok ((DailyEngagement.sortVals
        ((DailyEngagement.sortDays ds).map Prod.snd)).getD m 0) := by
  rw [DailyEngagement.calculate_trend_analysis, if_neg (by omega)]
  show Except.ok (DailyEngagement.medianOf _) = _
  rw [DailyEngagement.medianOf, if_neg, List.length_map,
    DailyEngagement.length_sortDays, hlen, Nat.mul_div_cancel_left m (by omega)]
  intro hnil
  have := congrArg List.length hnil
  rw [List.length_map, DailyEngagement.length_sortDays, hlen] at this
  simp at this
  omega

/-- Witness for C5 (amended) at the four-day input with values
`[1, 2, 3, 4]`. -/
theorem median_is_upper_middle_witness :
    (DailyEngagement.calculate_trend_analysis
        [("a", 1), ("b", 2), ("c", 3), ("d", 4)]).map
        (fun r => r.statistics.median) =
      .ok ((DailyEngagement.sortVals
        ((DailyEngagement.sortDays [("a", 1), ("b", 2), ("c", 3), ("d", 4)]).map
          Prod.snd)).getD 2 0) :=
  median_is_upper_middle [("a", 1), ("b", 2), ("c", 3), ("d", 4)] 2 (by decide) (by decide)

/-- C6 counterexample: for a single observation — length `1`, which the
claim covers — `calculate_trend_analysis` returns the structured
insufficient-data error and produces no day-over-day change list at
all. -/
theorem trend_analysis_single_observation_error :
    DailyEngagement.calculate_trend_analysis [("d", 5)] =
      .error "Need at least 2 days of data for trend analysis" ∧
    1 ≤ ([(("d" : String), (5 : ℚ))] : List DailyEngagement.DailySum).length :=
  ⟨rfl, by decide⟩

/-- C6 (amended): for at least 2 observations the change list has length
`n - 1`, and every change record's `absolute_change` equals
`current_value - previous_value`. -/
theorem day_over_day_changes_spec (ds : List DailyEngagement.DailySum)
    (h : 2 ≤ ds.length) :
    (DailyEngagement.calculate_trend_analysis ds).map
        (fun r => r.day_over_day_changes.length) = .ok (ds.length - 1) ∧
    ∀ c ∈ DailyEngagement.dayOverDayChanges (DailyEngagement.sortDays ds),
      c.absolute_change = c.current_value - c.previous_value := by
  constructor
  · rw [DailyEngagement.calculate_trend_analysis, if_neg (by omega)]
    show Except.ok (DailyEngagement.dayOverDayChanges _).length = _
    rw [DailyEngagement.length_dayOverDayChanges, DailyEngagement.length_sortDays]
  · intro c hc
    rcases List.mem_map.mp hc with ⟨p, _, rfl⟩
    rfl

/-- Witness for C6 (amended) at a concrete two-day input. -/
theorem day_over_day_changes_spec_witness :
    (DailyEngagement.calculate_trend_analysis [("a", 1), ("b", 2)]).map
        (fun r => r.day_over_day_changes.length) = .ok 1 ∧
    ∀ c ∈ DailyEngagement.dayOverDayChanges
        (DailyEngagement.sortDays [("a", 1), ("b", 2)]),
      c.absolute_change = c.current_value - c.previous_value :=
  day_over_day_changes_spec [("a", 1), ("b", 2)] (by decide)

open DailyEngagement in
/-- C7: trend breaks are detected only from index 7 onward of the
date-sorted series; both compared windows hold exactly 7 elements — the
trailing 7-day average ending the prior day against the one ending the
current day; a break is recorded exactly when the previous average is
positive and the relative shift exceeds 15% in absolute value (with a
zero previous average nothing is recorded); and a series with fewer than
8 observations yields an empty trend-break list. -/
theorem trend_breaks_windows_and_minimum_length
    (ds : List DailySum) (b : TrendBreak) :
    (2 ≤ ds.length →
      (calculate_trend_analysis ds).map (fun r => r.trend_breaks) =
        .ok (trendBreaks (sortDays ds))) ∧
    (ds.length < 8 → trendBreaks (sortDays ds) = []) ∧
    (∀ i, 7 ≤ i → i < ds.length →
      ((((sortDays ds).map Prod.snd).drop (i - 7)).take 7).length = 7 ∧
      ((((sortDays ds).map Prod.snd).drop (i - 6)).take 7).length = 7) ∧
    (b ∈ trendBreaks (sortDays ds) ↔
      ∃ i, 7 ≤ i ∧ i < ds.length ∧
        0 < prevWindowAvg ((sortDays ds).map Prod.snd) i ∧
        |(currWindowAvg ((sortDays ds).map Prod.snd) i -
            prevWindowAvg ((sortDays ds).map Prod.snd) i) /
            prevWindowAvg ((sortDays ds).map Prod.snd) i * 100| > 15 ∧
        b = { date := ((sortDays ds).getD i ("", 0)).1
              previous_7day_avg := prevWindowAvg ((sortDays ds).map Prod.snd) i
              current_7day_avg := currWindowAvg ((sortDays ds).map Prod.snd) i
              shift_percentage :=
                (currWindowAvg ((sortDays ds).map Prod.snd) i -
                    prevWindowAvg ((sortDays ds).map Prod.snd) i) /
                  prevWindowAvg ((sortDays ds).map Prod.snd) i * 100
              shift_type :=
                if (currWindowAvg ((sortDays ds).map Prod.snd) i -
                      prevWindowAvg ((sortDays ds).map Prod.snd) i) /
                    prevWindowAvg ((sortDays ds).map Prod.snd) i * 100 > 0
                then "increase" else "decrease" }) := by
  have hlen : (sortDays ds).length = ds.length := length_sortDays ds
  refine ⟨?_, ?_, ?_, ?_⟩
  · intro h
    rw [calculate_trend_analysis, if_neg (by omega)]
    rfl
  · intro h
    have h0 : (sortDays ds).length - 7 = 0 := by omega
    rw [trendBreaks, h0]
    rfl
  · intro i h7 hi
    constructor <;>
      simp only [List.length_take, List.length_drop, List.length_map, hlen] <;> omega
  · rw [trendBreaks, List.mem_filterMap]
    constructor
    · rintro ⟨i, hir, hsome⟩
      obtain ⟨h7, hilt⟩ := List.mem_range'_1.mp hir
      simp only [trendBreakAt] at hsome
      by_cases h1 : prevWindowAvg ((sortDays ds).map Prod.snd) i > 0
      · rw [if_pos h1] at hsome
        by_cases h2 : |(currWindowAvg ((sortDays ds).map Prod.snd) i -
            prevWindowAvg ((sortDays ds).map Prod.snd) i) /
            prevWindowAvg ((sortDays ds).map Prod.snd) i * 100| > 15
        · rw [if_pos h2] at hsome
          exact ⟨i, h7, by omega, h1, h2, (Option.some.inj hsome).symm⟩
        · rw [if_neg h2] at hsome
          exact absurd hsome (by simp)
      · rw [if_neg h1] at hsome
        exact absurd hsome (by simp)
    · rintro ⟨i, h7, hi, hprev, hshift, hb⟩
      refine ⟨i, List.mem_range'_1.mpr ⟨h7, by omega⟩, ?_⟩
      simp only [trendBreakAt]
      rw [if_pos hprev, if_pos hshift, hb]

open DailyEngagement in
/-- Witness for C7: a three-day series produces no trend breaks. -/
theorem trend_breaks_windows_and_minimum_length_witness :
    trendBreaks (sortDays [("a", 1), ("b", 2), ("c", 3)]) = [] :=
  (trend_breaks_windows_and_minimum_length [("a", 1), ("b", 2), ("c", 3)]
    ⟨"", 0, 0, 0, ""⟩).2.1 (by decide)

namespace DailyEngagement

lemma outliersOf_ten_ten_ten_ten_hundred :
    outliersOf [("d1", 10), ("d2", 10), ("d3", 10), ("d4", 10), ("d5", 100)] = [] := by
  have hm : meanOf ([10, 10, 10, 10, 100] : List ℚ) = 28 := by norm_num [meanOf]
  have hs : stdDevOf ([10, 10, 10, 10, 100] : List ℚ) = 36 := by
    have hv : varianceOf ([10, 10, 10, 10, 100] : List ℚ) = 1296 := by
      norm_num [varianceOf, meanOf]
    rw [stdDevOf, hv, show ((1296 : ℚ) : ℝ) = 36 ^ 2 by norm_num]
    exact Real.sqrt_sq (by norm_num)
  simp only [outliersOf, List.map_cons, List.map_nil, hm, hs]
  norm_num [List.filterMap_cons, abs_div]

end DailyEngagement

/-- C4 counterexample: for the value sequence `[10, 10, 10, 10, 100]`
the outlier list returned by `calculate_trend_analysis` is empty — in
particular the value `100` is NOT flagged, contrary to the claim. -/
theorem outlier_two_sigma_counterexample :
    (DailyEngagement.calculate_trend_analysis
        [("d1", 10), ("d2", 10), ("d3", 10), ("d4", 10), ("d5", 100)]).map
        (fun r => r.outliers.length) = .ok 0 := by
  have hsort : DailyEngagement.sortDays
      [("d1", 10), ("d2", 10), ("d3", 10), ("d4", 10), ("d5", 100)] =
      [("d1", 10), ("d2", 10), ("d3", 10), ("d4", 10), ("d5", 100)] := by decide
  rw [DailyEngagement.calculate_trend_analysis, if_neg (by decide)]
  show Except.ok (DailyEngagement.outliersOf (DailyEngagement.sortDays
      [("d1", 10), ("d2", 10), ("d3", 10), ("d4", 10), ("d5", 100)])).length = Except.ok 0
  rw [hsort, DailyEngagement.outliersOf_ten_ten_ten_ten_hundred]
  rfl

/-- C4 (amended): for `[10, 10, 10, 10, 100]` the mean is 28 and the
population standard deviation is exactly 36 (not ≈35.9), so the z-score
of the value 100 is exactly 2.0; the outlier test is strict
(`abs(z) > 2.0`), so 100 is not flagged and neither is any of the 10s:
the outlier list is empty. -/
theorem outlier_pass_two_sigma_exact :
    DailyEngagement.meanOf [10, 10, 10, 10, 100] = 28 ∧
    DailyEngagement.stdDevOf [10, 10, 10, 10, 100] = 36 ∧
    (((100 : ℚ) - DailyEngagement.meanOf [10, 10, 10, 10, 100] : ℚ) : ℝ) /
        DailyEngagement.stdDevOf [10, 10, 10, 10, 100] = 2 ∧
    ¬ (|(2 : ℝ)| > 2) ∧
    DailyEngagement.outliersOf
        [("d1", 10), ("d2", 10), ("d3", 10), ("d4", 10), ("d5", 100)] = [] := by
  have hm : DailyEngagement.meanOf ([10, 10, 10, 10, 100] : List ℚ) = 28 := by
    norm_num [DailyEngagement.meanOf]
  have hs : DailyEngagement.stdDevOf ([10, 10, 10, 10, 100] : List ℚ) = 36 := by
    have hv : DailyEngagement.varianceOf ([10, 10, 10, 10, 100] : List ℚ) = 1296 := by
      norm_num [DailyEngagement.varianceOf, DailyEngagement.meanOf]
    rw [DailyEngagement.stdDevOf, hv, show ((1296 : ℚ) : ℝ) = 36 ^ 2 by norm_num]
    exact Real.sqrt_sq (by norm_num)
  refine ⟨hm, hs, ?_, by norm_num,
    DailyEngagement.outliersOf_ten_ten_ten_ten_hundred⟩
  rw [hm, hs]
  push_cast
  norm_num

/-- C8: the analytics core is total over every input shape: fewer than
2 observations yields the structured insufficient-data error and at
least 2 yields a full result; the empty input to
`calculate_daily_average` yields `0`; and every guarded division
resolves to `0` on a zero denominator — per-key rates with zero visits,
shares with zero totals, z-scores with zero standard deviation
(no outlier is ever flagged then), trend strengths with non-positive
mean, and the whole shift-share decomposition with zero visit totals. -/
theorem analytics_core_totality
    (ds sd : List DailyEngagement.DailySum) (vs : List ℚ) (c v tcc tcp : ℚ)
    (d1 d2 d3 d4 : Manifest.Dict) :
    (ds.length < 2 →
      DailyEngagement.calculate_trend_analysis ds =
        .error "Need at least 2 days of data for trend analysis") ∧
    (2 ≤ ds.length → ∃ r, DailyEngagement.calculate_trend_analysis ds = .ok r) ∧
    DailyEngagement.calculate_daily_average [] = 0 ∧
    Manifest.safe_rate c 0 = 0 ∧
    Manifest.safe_share v 0 = 0 ∧
    (DailyEngagement.stdDevOf (sd.map Prod.snd) = 0 →
      DailyEngagement.outliersOf sd = []) ∧
    (¬ (DailyEngagement.meanOf vs > 0) →
      (DailyEngagement.linearTrendOf vs).strength_per_day_pct = 0 ∧
      (DailyEngagement.linearTrendOf vs).estimated_change_over_period_pct = 0) ∧
    Manifest.compute_shift_share_drivers tcc 0 tcp 0 d1 d2 d3 d4 =
      { rate_effect := 0, mix_effect := 0, volume_effect := 0, delta_rate := 0 } := by
  refine ⟨?_, ?_, ?_, by simp [Manifest.safe_rate], by simp [Manifest.safe_share],
    ?_, ?_, ?_⟩
  · intro h
    rw [DailyEngagement.calculate_trend_analysis, if_pos h]
  · intro h
    rw [DailyEngagement.calculate_trend_analysis, if_neg (by omega)]
    exact ⟨_, rfl⟩
  · rfl
  · intro h
    simp only [DailyEngagement.outliersOf, h]
    refine List.filterMap_eq_nil_iff.mpr (fun day _ => ?_)
    simp
  · intro h
    constructor <;> simp [DailyEngagement.linearTrendOf, h, ite_self]
  · simp only [Manifest.compute_shift_share_drivers, Manifest.shiftShareOverKeys,
      Manifest.foldl_shiftShareStep, zero_add]
    simp [Manifest.safe_rate, Manifest.safe_share]

/-- Witness for C8: the empty input yields the structured error, and a
zero-spread one-day series flags no outliers. -/
theorem analytics_core_totality_witness :
    DailyEngagement.calculate_trend_analysis [] =
      .error "Need at least 2 days of data for trend analysis" ∧
    DailyEngagement.outliersOf [("a", 5)] = [] :=
  ⟨(analytics_core_totality [] [("a", 5)] [] 0 0 0 0 [] [] [] []).1 (by decide),
    (analytics_core_totality [] [("a", 5)] [] 0 0 0 0 [] [] [] []).2.2.2.2.2.1 (by
      simp [DailyEngagement.stdDevOf, DailyEngagement.varianceOf,
        DailyEngagement.meanOf])⟩

namespace AgentRunner

open Manifest

/-- One cohort row of `run_rca_interaction_rate` (agent_runner.py lines
291-299), including the `contribution_to_delta` field added at lines
302-304. -/
structure CohortRow where
  key : String
  visits : ℚ
  clicks : ℚ
  rate : ℚ
  visits_prev : ℚ
  clicks_prev : ℚ
  rate_prev : ℚ
  contribution_to_delta : ℚ
  deriving Repr, DecidableEq

/-- The key set of the cohort loop (agent_runner.py line 282): the union
of the keys of all four per-cohort mappings, in the code's concatenation
order `visits_cur, visits_prev, clicks_cur, clicks_prev`. -/
def rcaKeys
    (visits_by_key_cur visits_by_key_prev clicks_by_key_cur clicks_by_key_prev : Dict) :
    List String :=
  (dictKeys visits_by_key_cur ++ dictKeys visits_by_key_prev ++
    dictKeys clicks_by_key_cur ++ dictKeys clicks_by_key_prev).dedup

/-- The cohort rows of `run_rca_interaction_rate` (agent_runner.py lines
283-304): per-key lookups default to `0.0`, rates come from
`compute_interaction_rate_from_counts`, and
`total_v_cur = sum_visits_cur if sum_visits_cur > 0 else 1.0`; the
source appends the `contribution_to_delta` field in a second loop over
the same rows, which is fused here. -/
def cohortRows (sum_visits_cur : ℚ)
    (visits_by_key_cur clicks_by_key_cur visits_by_key_prev clicks_by_key_prev : Dict) :
    List CohortRow :=
  let total_v_cur := if sum_visits_cur > 0 then sum_visits_cur else 1
  (rcaKeys visits_by_key_cur visits_by_key_prev clicks_by_key_cur clicks_by_key_prev).map
    (fun k =>
      let v_cur := dget visits_by_key_cur k
      let c_cur := dget clicks_by_key_cur k
      let v_prev := dget visits_by_key_prev k
      let c_prev := dget clicks_by_key_prev k
      let r_cur_k := compute_interaction_rate_from_counts c_cur v_cur
      let r_prev_k := compute_interaction_rate_from_counts c_prev v_prev
      { key := k
        visits := v_cur
        clicks := c_cur
        rate := r_cur_k
        visits_prev := v_prev
        clicks_prev := c_prev
        rate_prev := r_prev_k
        contribution_to_delta := v_cur / total_v_cur * (r_cur_k - r_prev_k) })

/-- `top_contributors` (agent_runner.py line 306): stable sort by
absolute contribution, descending, then the first `top_x` rows. -/
def topContributors (rows : List CohortRow) (top_x : ℕ) : List CohortRow :=
  (rows.insertionSort
    (fun a b => |b.contribution_to_delta| ≤ |a.contribution_to_delta|)).take top_x

/-- Modelled from the claim's words (C9): a contribution with
denominator `max(total_visits_current, 1)`. The code's denominator is
`total_visits_current if total_visits_current > 0 else 1.0`. -/
def specContribution
    (visits_current total_visits_current rate_current rate_previous : ℚ) : ℚ :=
  visits_current / max total_visits_current 1 * (rate_current - rate_previous)

end AgentRunner

/-- C9 counterexample: with a fractional current visit total of `1/2`
(one cohort holding all visits, current rate 100, previous rate 0) the
code divides by the total itself, giving contribution `100`, while the
claim's `max(total, 1)` denominator gives `50`. -/
theorem rca_contribution_denominator_counterexample :
    (AgentRunner.cohortRows (1/2) [("a", 1/2)] [("a", 1/2)] [] []).map
        (fun r => r.contribution_to_delta) =
      [(1/2 : ℚ) / (1/2) * (Manifest.compute_interaction_rate_from_counts (1/2) (1/2) - 0)] ∧
    (1/2 : ℚ) / (1/2) * (Manifest.compute_interaction_rate_from_counts (1/2) (1/2) - 0) = 100 ∧
    AgentRunner.specContribution (1/2) (1/2) 100 0 = 50 ∧
    (100 : ℚ) ≠ 50 := by
  refine ⟨?_, ?_, ?_, by norm_num⟩
  · simp [AgentRunner.cohortRows, AgentRunner.rcaKeys, Manifest.dictKeys, Manifest.dget,
      Manifest.compute_interaction_rate_from_counts]
  · rw [Manifest.compute_interaction_rate_from_counts, if_neg (by norm_num)]
    norm_num
  · rw [AgentRunner.specContribution, show max (1/2 : ℚ) 1 = 1 from by norm_num]
    norm_num

/-- C9 (amended): each cohort row's `contribution_to_delta` equals
`(visits_current / d) * (rate_current - rate_previous)` where the
denominator `d` is `total_visits_current` when it is positive and `1`
otherwise — which agrees with the claim's `max(total_visits_current, 1)`
whenever the total is `0` or at least `1` (every integral total); the
rates are the ×100 percentage rates of the counts; and sorting
descending by absolute contribution and taking the first `top_x = 2` of
cohorts contributing `+5`, `-8`, `+2` yields the `-8` cohort first and
the `+5` cohort second. -/
theorem rca_contribution_and_ranking (svc : ℚ)
    (vbc cbc vbp cbp : Manifest.Dict) :
    (∀ r ∈ AgentRunner.cohortRows svc vbc cbc vbp cbp,
      r.contribution_to_delta =
        r.visits / (if svc > 0 then svc else 1) * (r.rate - r.rate_prev) ∧
      r.rate = Manifest.compute_interaction_rate_from_counts r.clicks r.visits ∧
      r.rate_prev =
        Manifest.compute_interaction_rate_from_counts r.clicks_prev r.visits_prev ∧
      (1 ≤ svc ∨ svc = 0 →
        r.contribution_to_delta =
          AgentRunner.specContribution r.visits svc r.rate r.rate_prev)) ∧
    (AgentRunner.topContributors
        [{ key := "A", visits := 0, clicks := 0, rate := 0, visits_prev := 0,
           clicks_prev := 0, rate_prev := 0, contribution_to_delta := 5 },
         { key := "B", visits := 0, clicks := 0, rate := 0, visits_prev := 0,
           clicks_prev := 0, rate_prev := 0, contribution_to_delta := -8 },
         { key := "C", visits := 0, clicks := 0, rate := 0, visits_prev := 0,
           clicks_prev := 0, rate_prev := 0, contribution_to_delta := 2 }] 2).map
      (fun r => r.key) = ["B", "A"] := by
  constructor
  · intro r hr
    rcases List.mem_map.mp hr with ⟨k, _, rfl⟩
    refine ⟨rfl, rfl, rfl, ?_⟩
    intro hsvc
    have hden : (if svc > 0 then svc else 1) = max svc 1 := by
      rcases hsvc with h1 | h0
      · rw [if_pos (by linarith), max_eq_left h1]
      · rw [h0, if_neg (by norm_num), max_eq_right (by norm_num)]
    show _ = AgentRunner.specContribution _ _ _ _
    rw [AgentRunner.specContribution, ← hden]
  · decide

/-- Witness for C9 (amended): a concrete cohort with zero clicks in a
positive-total period has contribution `0` via the stated formula. -/
theorem rca_contribution_and_ranking_witness :
    ∀ r ∈ AgentRunner.cohortRows 2 [("a", 4)] [("a", 0)] [] [],
      r.contribution_to_delta =
        r.visits / (if (2 : ℚ) > 0 then 2 else 1) * (r.rate - r.rate_prev) :=
  fun r hr => ((rca_contribution_and_ranking 2 [("a", 4)] [("a", 0)] [] []).1 r hr).1
